import Mathlib

/-!
Shallow embedding of `outlook_mcp_server.py` (repository `outlook-mcp-server`).

Python strings are modelled as `List Char` where character-level operations
(`.lower()`, `.strip()`, `.split(" OR ")`, the `in` substring test) are needed,
and as Lean `String` where only concatenation and equality matter (the
human-readable tool outputs).  Python `datetime` values are modelled as naive
local timestamps in integer microseconds (`Int`); `tzinfo` stripping via
`.replace(tzinfo=None)` is the identity on this naive value.  The external
Outlook COM collaborator (connection, folders, live items, the result of
`Items.Restrict`) is passed in explicitly as oracle data.
-/

deriving instance DecidableEq for Except

namespace OutlookMcp

/-- Python `str.lower()` on a char list (per-character lowering). -/
def pyLower (l : List Char) : List Char := l.map Char.toLower

/-- Python `str.strip()` on a char list: whitespace removed from both ends. -/
def pyStrip (l : List Char) : List Char :=
  ((l.dropWhile Char.isWhitespace).reverse.dropWhile Char.isWhitespace).reverse

/-- Boolean prefix test on char lists (used by the substring test). -/
def prefixB : List Char → List Char → Bool
  | [], _ => true
  | _ :: _, [] => false
  | a :: as, b :: bs => a == b && prefixB as bs

/-- Python `needle in hay` substring test on char lists. -/
def containsB (needle : List Char) : List Char → Bool
  | [] => prefixB needle []
  | c :: rest => prefixB needle (c :: rest) || containsB needle rest

/-- Python `s.split(" OR ")`: left-to-right, non-overlapping split on the
literal four-character separator.  `acc` holds the current piece reversed. -/
def splitOR : List Char → List Char → List (List Char)
  | acc, ' ' :: 'O' :: 'R' :: ' ' :: rest => acc.reverse :: splitOR [] rest
  | acc, c :: rest => splitOR (c :: acc) rest
  | acc, [] => [acc.reverse]

/-- `[term.strip().lower() for term in search_term.split(" OR ")]`
(the manual-filter term list, used at lines 155 and 230 of the source). -/
def searchTermsOf (search_term : List Char) : List (List Char) :=
  (splitOR [] search_term).map (fun t => pyLower (pyStrip t))

/-- Manual appointment search filter, lines 154-167: some term is a substring
of the lowered subject, location or body. -/
def apptTermMatch (search_term subject location body : List Char) : Bool :=
  (searchTermsOf search_term).any fun term =>
    containsB term (pyLower subject) || containsB term (pyLower location) ||
      containsB term (pyLower body)

/-- Manual email search filter, lines 230-242: some term is a substring of the
lowered subject, sender name or body. -/
def emailTermMatch (search_term subject senderName body : List Char) : Bool :=
  (searchTermsOf search_term).any fun term =>
    containsB term (pyLower subject) || containsB term (pyLower senderName) ||
      containsB term (pyLower body)

/-- Time units: the embedding measures naive local time in microseconds. -/
def usPerSec : Int := 1000000

/-- Microseconds per day. -/
def usPerDay : Int := 86400000000

/-- Python `dt.replace(hour=0, minute=0, second=0, microsecond=0)`: floor the
timestamp to the start of its day (floor division handles any sign). -/
def dayStart (t : Int) : Int := (Int.fdiv t usPerDay) * usPerDay

/-- A COM recipient of a mail or appointment item.  A field whose attribute is
missing on the raw COM object is `none`; accessing it raises `AttributeError`. -/
structure RawRecipient where
  name : Option String
  address : Option String
  deriving DecidableEq

/-- A raw Outlook mail item as seen through COM attribute access.  `none` in an
outer `Option` models a missing attribute (`hasattr` is false and a direct
access raises); the inner `Option` of `receivedTime` models a `None`/falsy
attribute value.  Timestamps are naive-local microseconds; the `attachments`
field is the `Attachments.Count` of the item when that collection exists. -/
structure RawEmail where
  entryID : Option String
  conversationID : Option String
  subject : Option String
  senderName : Option String
  senderEmail : Option String
  receivedTime : Option (Option Int)
  recipients : Option (List RawRecipient)
  body : Option String
  attachments : Option Nat
  unread : Option Bool
  importance : Option Int
  categories : Option String
  deriving DecidableEq

/-- A raw Outlook appointment item, same conventions as `RawEmail`. -/
structure RawAppt where
  entryID : Option String
  subject : Option String
  start_ : Option (Option Int)
  end_ : Option (Option Int)
  location : Option String
  organizer : Option String
  recipients : Option (List RawRecipient)
  body : Option String
  allDayEvent : Option Bool
  isRecurring : Option Bool
  reminderMinutes : Option Int
  categories : Option String
  importance : Option Int
  busyStatus : Option Int
  deriving DecidableEq

/-- The dictionary built by `format_email` (lines 67-81).  The source stores
`received_time` as a `strftime` string or `None`; the embedding keeps the
timestamp itself (the rendering is injective on the modelled value). -/
structure EmailData where
  id : String
  conversation_id : Option String
  subject : String
  sender : String
  sender_email : String
  received_time : Option Int
  recipients : List String
  body : String
  has_attachments : Bool
  attachment_count : Nat
  unread : Bool
  importance : Int
  categories : String
  deriving DecidableEq

/-- The dictionary built by `format_appointment` (lines 110-125), with the
same timestamp convention as `EmailData`. -/
structure ApptData where
  id : String
  subject : String
  start_time : Option Int
  end_time : Option Int
  location : String
  organizer : String
  attendees : List String
  body : String
  is_all_day : Bool
  is_recurring : Bool
  reminder_minutes : Int
  categories : String
  importance : Int
  busy_status : Int
  deriving DecidableEq

/-- Access a COM attribute: raises (as `Except.error` carrying the attribute
name, standing for the `AttributeError` text) when the attribute is absent. -/
def attrGet {α : Type} (name : String) : Option α → Except String α
  | none => Except.error name
  | some a => Except.ok a

/-- Lines 60-64 and 103-107: render one recipient.  The inner `try` retries
with the name alone when `recipient.Address` raises; a raise on
`recipient.Name` itself escapes the inner `try` and propagates. -/
def fmtRecipient (r : RawRecipient) : Except String String :=
  match r.name, r.address with
  | some n, some a => Except.ok (n ++ " <" ++ a ++ ">")
  | some n, none => Except.ok n
  | none, _ => Except.error "Name"

/-- Render the whole recipient list, propagating the first raise. -/
def fmtRecipients : List RawRecipient → Except String (List String)
  | [] => Except.ok []
  | r :: rs => do
    let s ← fmtRecipient r
    let ss ← fmtRecipients rs
    pure (s :: ss)

/-- `format_email` body before its outer `except` (lines 55-82): attribute
accesses in source order; `hasattr`-guarded fields fall back to their
defaults, unguarded accesses raise. -/
def format_email_core (m : RawEmail) : Except String EmailData := do
  let rawRecips ← attrGet "Recipients" m.recipients
  let recips ← fmtRecipients rawRecips
  let eid ← attrGet "EntryID" m.entryID
  let subj ← attrGet "Subject" m.subject
  let sname ← attrGet "SenderName" m.senderName
  let saddr ← attrGet "SenderEmailAddress" m.senderEmail
  let rtime ← attrGet "ReceivedTime" m.receivedTime
  let bdy ← attrGet "Body" m.body
  let attCount ← attrGet "Attachments" m.attachments
  pure
    { id := eid
      conversation_id := m.conversationID
      subject := subj
      sender := sname
      sender_email := saddr
      received_time := rtime
      recipients := recips
      body := bdy
      has_attachments := attCount > 0
      attachment_count := m.attachments.getD 0
      unread := m.unread.getD false
      importance := m.importance.getD 1
      categories := m.categories.getD "" }

/-- `format_email` (lines 53-84): any raise is wrapped by the outer `except`
into `Exception("Failed to format email: ...")` and re-raised. -/
def format_email (m : RawEmail) : Except String EmailData :=
  match format_email_core m with
  | Except.ok d => Except.ok d
  | Except.error a => Except.error ("Failed to format email: " ++ a)

/-- Attendee extraction of lines 100-107: the `Recipients` access is
`hasattr`-guarded (line 101), so an absent collection yields `[]`; a raise on
a recipient's `Name` still propagates. -/
def apptAttendees (a : RawAppt) : Except String (List String) :=
  match a.recipients with
  | none => pure []
  | some rs => fmtRecipients rs

/-- `format_appointment` body before its outer `except` (lines 98-126).
`EntryID`, `Subject`, `Start` and `End` are accessed unguarded. -/
def format_appointment_core (a : RawAppt) : Except String ApptData := do
  let attendees ← apptAttendees a
  let eid ← attrGet "EntryID" a.entryID
  let subj ← attrGet "Subject" a.subject
  let st ← attrGet "Start" a.start_
  let en ← attrGet "End" a.end_
  pure
    { id := eid
      subject := subj
      start_time := st
      end_time := en
      location := a.location.getD ""
      organizer := a.organizer.getD ""
      attendees := attendees
      body := a.body.getD ""
      is_all_day := a.allDayEvent.getD false
      is_recurring := a.isRecurring.getD false
      reminder_minutes := a.reminderMinutes.getD 0
      categories := a.categories.getD ""
      importance := a.importance.getD 1
      busy_status := a.busyStatus.getD 2 }

/-- `format_appointment` (lines 96-128) with its outer wrap-and-re-raise. -/
def format_appointment (a : RawAppt) : Except String ApptData :=
  match format_appointment_core a with
  | Except.ok d => Except.ok d
  | Except.error at_ => Except.error ("Failed to format appointment: " ++ at_)

/-- Truth value of the source's guard `folder_items == folder.Items`
(line 228).  Each access to the COM `Items` property returns a freshly
created collection wrapper (which is why line 192 must store it in a variable
before calling `Sort`), and `==` on two such wrapper objects is reference
equality; the stored collection is therefore never equal to a fresh one, on
the restricted path or the fallback path alike. -/
def comItemsEq : Bool := false

/-- The server-side push-down filter of lines 202-210: a DASL `@SQL` Restrict
whose conditions are `LIKE '%term%'` over `subject`, `fromname` and
`textdescription` for each stripped (not lowered) term.  DASL string matching
is case-insensitive, modelled by comparing lowered forms; a store-side
property reads as empty when the attribute is absent on the item. -/
def sqlEmailMatch (search_term : String) (m : RawEmail) : Bool :=
  ((splitOR [] search_term.data).map pyStrip).any fun term =>
    containsB (pyLower term) (pyLower (m.subject.getD "").data) ||
      containsB (pyLower term) (pyLower (m.senderName.getD "").data) ||
        containsB (pyLower term) (pyLower (m.body.getD "").data)

/-- One disjunct chain `term in f1.lower() or term in f2.lower() or ...` over
attribute-accessed fields, with Python's left-to-right short-circuit: a later
attribute is never accessed once an earlier field matched, and an absent
attribute raises only when the chain actually reaches it. -/
def orChainMatch (term : List Char) : List (String × Option String) →
    Except String Bool
  | [] => Except.ok false
  | (nm, f) :: rest => do
    let v ← attrGet nm f
    if containsB term (pyLower v.data) then Except.ok true
    else orChainMatch term rest

/-- The `for term in search_terms` loop of the manual filters (lines 159-164
and 234-239): stop at the first matching term (`break`), re-evaluating the
field accesses for each term as the source does. -/
def anyTermMatch (fields : List (String × Option String)) :
    List (List Char) → Except String Bool
  | [] => Except.ok false
  | t :: ts => do
    let b ← orChainMatch t fields
    if b then Except.ok true else anyTermMatch fields ts

/-- Per-item body of the email scan loop (lines 217-250).  A `none` result is
`continue`: the guard of line 219 failed, the item fell outside the window,
the manual filter rejected it, or an attribute access or `format_email`
raised (caught by the per-item `except`). -/
def processEmail (threshold_date : Int) (search_term : Option String)
    (m : RawEmail) : Option EmailData :=
  match m.receivedTime with
  | some (some received_time) =>
    if received_time < threshold_date then none
    else if search_term.isSome && comItemsEq then
      match search_term with
      | some term =>
        match anyTermMatch
            [("Subject", m.subject), ("SenderName", m.senderName),
              ("Body", m.body)] (searchTermsOf term.data) with
        | Except.error _ => none
        | Except.ok false => none
        | Except.ok true => (format_email m).toOption
      | none => none
    else (format_email m).toOption
  | _ => none

/-- `get_emails_from_folder` (lines 182-255).  `items` is the folder's item
sequence after the `Sort` of line 193 (ordering is the store's, passed in);
`restrictOk` says whether the store accepted the `Restrict` push-down filter
(the bare `except` of line 211 swallows a rejection). -/
def get_emails_from_folder (now : Int) (days : Int)
    (search_term : Option String) (restrictOk : Bool)
    (items : List RawEmail) : List EmailData :=
  let threshold_date := now - days * usPerDay
  let pool :=
    match search_term with
    | some term => if restrictOk then items.filter (sqlEmailMatch term) else items
    | none => items
  pool.filterMap (processEmail threshold_date search_term)

/-- Per-item body of the appointment scan loop (lines 145-175).  The window
check runs only when the `Start` attribute exists and is truthy (line 148);
the manual search filter accesses `Subject`, `Location` and `Body` through
the short-circuiting or-chain of lines 160-162, so an absent attribute
raises (and the item is skipped) only when the chain reaches it before a
match. -/
def processAppt (start_date end_date : Int) (search_term : Option String)
    (a : RawAppt) : Option ApptData :=
  let inRange : Bool :=
    match a.start_ with
    | some (some item_start) =>
      decide (start_date ≤ item_start) && decide (item_start ≤ end_date)
    | _ => true
  if !inRange then none
  else
    match search_term with
    | some term =>
      match anyTermMatch
          [("Subject", a.subject), ("Location", a.location), ("Body", a.body)]
          (searchTermsOf term.data) with
      | Except.error _ => none
      | Except.ok false => none
      | Except.ok true => (format_appointment a).toOption
    | none => (format_appointment a).toOption

/-- `get_appointments_from_calendar` (lines 130-180).  The window is
`[today 00:00:00, (today + days) 23:59:59.000000]` computed from `now`;
`items` is the calendar's item sequence after the `Sort` of line 142. -/
def get_appointments_from_calendar (now : Int) (days : Int)
    (search_term : Option String) (items : List RawAppt) : List ApptData :=
  let start_date := dayStart now
  let end_date := start_date + days * usPerDay + 86399 * usPerSec
  items.filterMap (processAppt start_date end_date search_term)

/-- The two module-level caches (lines 13-15).  Each successful listing stores
`email_cache[i] = emails[i-1]` for `i = 1..N`, a contiguous 1-based dict that
is in bijection with the list of records; the embedding keeps the list and
reads ordinal `n` at index `n - 1`. -/
structure ServerState where
  email_cache : List EmailData
  calendar_cache : List ApptData
  deriving DecidableEq

/-- Store-side effects an operation performs, in order: a successful COM
connection, `CreateItem`, `Save`, `Send`. -/
inductive Effect
  | connect
  | createItem
  | save
  | send
  deriving DecidableEq

/-- Result of one tool invocation: the returned text, the cache state after
the call, and the store-side effects that occurred. -/
structure OpResult where
  output : String
  state : ServerState
  effects : List Effect
  deriving DecidableEq

/-- The live COM item `namespace.GetItemFromID` returns (only the fields the
tools read from the live object, as opposed to the cached snapshot). -/
structure LiveEmail where
  senderName : String
  senderEmail : String
  attachmentNames : List String
  deriving DecidableEq

/-- External-world inputs of a listing/search operation: `connectErr` is the
text of the connection failure when `connect_to_outlook` raises (`none` =
success), `inboxItems` the sorted default-inbox items, `namedFolder` the
result of `get_folder_by_name` when a folder name is supplied, `now` the
clock reading, `restrictOk` whether the store accepts the push-down filter. -/
structure EmailListEnv where
  connectErr : Option String
  inboxItems : List RawEmail
  namedFolder : Option (List RawEmail)
  now : Int
  restrictOk : Bool

/-- External-world inputs of a calendar listing/search operation. -/
structure CalListEnv where
  connectErr : Option String
  calendarItems : List RawAppt
  now : Int

/-- External-world inputs of a by-number fetch (`GetItemFromID`): `fetched`
is `none` when the live item comes back falsy (line 438 / 492). -/
structure FetchEnv where
  connectErr : Option String
  fetched : Option LiveEmail

/-- A `save_as_draft` argument: the tools accept a native boolean or a
string token. -/
inductive DraftVal
  | ofBool (b : Bool)
  | ofStr (s : String)

/-- Python `s.lower()` on a whole string. -/
def pyLowerStr (s : String) : String := String.mk (pyLower s.data)

/-- Lines 500-501 and 546-547: a string argument is coerced with
`save_as_draft.lower() in ['true', '1', 'yes']`; a boolean passes through. -/
def coerceDraft : DraftVal → Bool
  | DraftVal.ofBool b => b
  | DraftVal.ofStr s => ["true", "1", "yes"].contains (pyLowerStr s)

/-- Default of the `save_as_draft` parameter in `reply_to_email_by_number`
and `compose_email` (both signatures declare `save_as_draft: bool = True`). -/
def save_as_draft_default : DraftVal := DraftVal.ofBool true

/-- Python rendering of the cached `received_time` value (a string in the
source, `None` when absent; the embedding renders the modelled timestamp). -/
def timeStr : Option Int → String
  | none => "None"
  | some t => toString t

/-- Render a yes/no flag the way the f-strings do. -/
def yesNo (b : Bool) : String := if b then "Yes" else "No"

/-- `folder_display` (lines 325 / 388). -/
def folderDisplay : Option String → String
  | some fname => "'" ++ fname ++ "'"
  | none => "Inbox"

/-- One numbered email summary block (lines 337-342 / 400-405). -/
def emailSummary (i : Nat) (e : EmailData) : String :=
  "Email #" ++ toString i ++ "\n" ++
    "Subject: " ++ e.subject ++ "\n" ++
    "From: " ++ e.sender ++ " <" ++ e.sender_email ++ ">\n" ++
    "Received: " ++ timeStr e.received_time ++ "\n" ++
    "Read Status: " ++ (if e.unread then "Unread" else "Read") ++ "\n" ++
    "Has Attachments: " ++ yesNo e.has_attachments ++ "\n\n"

/-- One numbered appointment summary block (lines 600-606 / 655-662). -/
def apptSummary (i : Nat) (a : ApptData) : String :=
  "Appointment #" ++ toString i ++ "\n" ++
    "Subject: " ++ a.subject ++ "\n" ++
    "Start: " ++ timeStr a.start_time ++ "\n" ++
    "End: " ++ timeStr a.end_time ++ "\n" ++
    "Location: " ++ a.location ++ "\n" ++
    "All Day: " ++ yesNo a.is_all_day ++ "\n" ++
    "Recurring: " ++ yesNo a.is_recurring ++ "\n\n"

/-- `for i, x in enumerate(xs, 1): result += f i x` starting at ordinal `i`. -/
def concatNumbered {α : Type} (f : Nat → α → String) : Nat → List α → String
  | _, [] => ""
  | i, x :: xs => f i x ++ concatNumbered f (i + 1) xs

/-- `list_recent_emails` (lines 291-348).  Validation of `days` precedes any
store access; the cache is cleared only after connection and folder
resolution succeed; a listing of `N` records installs ordinals `1..N`. -/
def list_recent_emails (st : ServerState) (days : Int)
    (folder_name : Option String) (env : EmailListEnv) : OpResult :=
  if days < 1 || days > 30 then
    { output := "Error: 'days' must be an integer between 1 and 30"
      state := st, effects := [] }
  else
    match env.connectErr with
    | some e =>
      { output := "Error retrieving email titles: Failed to connect to Outlook: " ++ e
        state := st, effects := [] }
    | none =>
      let folderItems : Option (List RawEmail) :=
        match folder_name with
        | some _ => env.namedFolder
        | none => some env.inboxItems
      match folderItems with
      | none =>
        { output := "Error: Folder '" ++ folder_name.getD "" ++ "' not found"
          state := st, effects := [Effect.connect] }
      | some items =>
        let emails := get_emails_from_folder env.now days none env.restrictOk items
        if emails.isEmpty then
          { output := "No emails found in " ++ folderDisplay folder_name ++
              " from the last " ++ toString days ++ " days."
            state := { st with email_cache := [] }
            effects := [Effect.connect] }
        else
          { output := "Found " ++ toString emails.length ++ " emails in " ++
              folderDisplay folder_name ++ " from the last " ++ toString days ++
              " days:\n\n" ++ concatNumbered emailSummary 1 emails ++
              "To view the full content of an email, use the get_email_by_number tool with the email number."
            state := { st with email_cache := emails }
            effects := [Effect.connect] }

/-- `search_emails` (lines 350-411): like `list_recent_emails` with the
search term passed down, after the non-empty-term check of line 363. -/
def search_emails (st : ServerState) (search_term : String) (days : Int)
    (folder_name : Option String) (env : EmailListEnv) : OpResult :=
  if search_term = "" then
    { output := "Error: Please provide a search term", state := st, effects := [] }
  else if days < 1 || days > 30 then
    { output := "Error: 'days' must be an integer between 1 and 30"
      state := st, effects := [] }
  else
    match env.connectErr with
    | some e =>
      { output := "Error searching emails: Failed to connect to Outlook: " ++ e
        state := st, effects := [] }
    | none =>
      let folderItems : Option (List RawEmail) :=
        match folder_name with
        | some _ => env.namedFolder
        | none => some env.inboxItems
      match folderItems with
      | none =>
        { output := "Error: Folder '" ++ folder_name.getD "" ++ "' not found"
          state := st, effects := [Effect.connect] }
      | some items =>
        let emails :=
          get_emails_from_folder env.now days (some search_term) env.restrictOk items
        if emails.isEmpty then
          { output := "No emails matching '" ++ search_term ++ "' found in " ++
              folderDisplay folder_name ++ " from the last " ++ toString days ++ " days."
            state := { st with email_cache := [] }
            effects := [Effect.connect] }
        else
          { output := "Found " ++ toString emails.length ++ " emails matching '" ++
              search_term ++ "' in " ++ folderDisplay folder_name ++
              " from the last " ++ toString days ++ " days:\n\n" ++
              concatNumbered emailSummary 1 emails ++
              "To view the full content of an email, use the get_email_by_number tool with the email number."
            state := { st with email_cache := emails }
            effects := [Effect.connect] }

/-- A placeholder record: `List.getD` needs a default, only read when the
ordinal bound check has already passed. -/
def emailDataD : EmailData :=
  { id := "", conversation_id := none, subject := "", sender := ""
    sender_email := "", received_time := none, recipients := [], body := ""
    has_attachments := false, attachment_count := 0, unread := false
    importance := 1, categories := "" }

/-- Placeholder appointment record, same role as `emailDataD`. -/
def apptDataD : ApptData :=
  { id := "", subject := "", start_time := none, end_time := none
    location := "", organizer := "", attendees := [], body := ""
    is_all_day := false, is_recurring := false, reminder_minutes := 0
    categories := "", importance := 1, busy_status := 2 }

/-- Cache lookup `email_cache[email_number]` under the membership guard. -/
def emailAt (st : ServerState) (n : Int) : EmailData :=
  st.email_cache.getD (n - 1).toNat emailDataD

/-- Cache lookup `calendar_cache[appointment_number]`. -/
def apptAt (st : ServerState) (n : Int) : ApptData :=
  st.calendar_cache.getD (n - 1).toNat apptDataD

/-- The full-detail rendering of lines 442-458, from the cached record plus
the live item (used only for attachment file names). -/
def emailDetail (n : Int) (d : EmailData) (live : LiveEmail) : String :=
  "Email #" ++ toString n ++ " Details:\n\n" ++
    "Subject: " ++ d.subject ++ "\n" ++
    "From: " ++ d.sender ++ " <" ++ d.sender_email ++ ">\n" ++
    "Received: " ++ timeStr d.received_time ++ "\n" ++
    "Recipients: " ++ String.intercalate ", " d.recipients ++ "\n" ++
    "Has Attachments: " ++ yesNo d.has_attachments ++ "\n" ++
    (if d.has_attachments then
      "Attachments:\n" ++
        String.join (live.attachmentNames.map fun fn => "  - " ++ fn ++ "\n")
    else "") ++
    "\nBody:\n" ++ d.body ++
    "\n\nTo reply to this email, use the reply_to_email_by_number tool with this email number."

/-- `get_email_by_number` (lines 413-463).  The two cache checks run first
(lines 425-429); only then does the tool connect and re-fetch the live item. -/
def get_email_by_number (st : ServerState) (email_number : Int)
    (env : FetchEnv) : OpResult :=
  if st.email_cache.isEmpty then
    { output := "Error: No emails have been listed yet. Please use list_recent_emails or search_emails first."
      state := st, effects := [] }
  else if email_number < 1 || email_number > st.email_cache.length then
    { output := "Error: Email #" ++ toString email_number ++ " not found in the current listing."
      state := st, effects := [] }
  else
    match env.connectErr with
    | some e =>
      { output := "Error retrieving email details: Failed to connect to Outlook: " ++ e
        state := st, effects := [] }
    | none =>
      match env.fetched with
      | none =>
        { output := "Error: Email #" ++ toString email_number ++ " could not be retrieved from Outlook."
          state := st, effects := [Effect.connect] }
      | some live =>
        { output := emailDetail email_number (emailAt st email_number) live
          state := st, effects := [Effect.connect] }

/-- `reply_to_email_by_number` (lines 465-513).  The reply is built on the
live item; the draft/send decision coerces `save_as_draft`; the confirmation
names the live item's sender. -/
def reply_to_email_by_number (st : ServerState) (email_number : Int)
    (reply_text : String) (save_as_draft : DraftVal) (env : FetchEnv) : OpResult :=
  if st.email_cache.isEmpty then
    { output := "Error: No emails have been listed yet. Please use list_recent_emails or search_emails first."
      state := st, effects := [] }
  else if email_number < 1 || email_number > st.email_cache.length then
    { output := "Error: Email #" ++ toString email_number ++ " not found in the current listing."
      state := st, effects := [] }
  else
    match env.connectErr with
    | some e =>
      { output := "Error replying to email: Failed to connect to Outlook: " ++ e
        state := st, effects := [] }
    | none =>
      match env.fetched with
      | none =>
        { output := "Error: Email #" ++ toString email_number ++ " could not be retrieved from Outlook."
          state := st, effects := [Effect.connect] }
      | some live =>
        if coerceDraft save_as_draft then
          { output := "Reply saved as draft for: " ++ live.senderName ++ " <" ++ live.senderEmail ++ ">"
            state := st, effects := [Effect.connect, Effect.save] }
        else
          { output := "Reply sent successfully to: " ++ live.senderName ++ " <" ++ live.senderEmail ++ ">"
            state := st, effects := [Effect.connect, Effect.send] }

/-- `compose_email` (lines 515-559): no cache interaction at all. -/
def compose_email (st : ServerState) (recipient_email subject body : String)
    (cc_email : Option String) (save_as_draft : DraftVal)
    (connectErr : Option String) : OpResult :=
  match connectErr with
  | some e =>
    { output := "Error composing email: Failed to connect to Outlook: " ++ e
      state := st, effects := [] }
  | none =>
    if coerceDraft save_as_draft then
      { output := "Email saved as draft for: " ++ recipient_email
        state := st, effects := [Effect.connect, Effect.createItem, Effect.save] }
    else
      { output := "Email sent successfully to: " ++ recipient_email
        state := st, effects := [Effect.connect, Effect.createItem, Effect.send] }

/-- `list_calendar_appointments` (lines 562-612). -/
def list_calendar_appointments (st : ServerState) (days : Int)
    (env : CalListEnv) : OpResult :=
  if days < 1 || days > 60 then
    { output := "Error: 'days' must be an integer between 1 and 60"
      state := st, effects := [] }
  else
    match env.connectErr with
    | some e =>
      { output := "Error retrieving calendar appointments: Failed to connect to Outlook: " ++ e
        state := st, effects := [] }
    | none =>
      let appointments :=
        get_appointments_from_calendar env.now days none env.calendarItems
      if appointments.isEmpty then
        { output := "No appointments found in the next " ++ toString days ++ " days."
          state := { st with calendar_cache := [] }
          effects := [Effect.connect] }
      else
        { output := "Found " ++ toString appointments.length ++
            " appointments in the next " ++ toString days ++ " days:\n\n" ++
            concatNumbered apptSummary 1 appointments ++
            "To view the full details of an appointment, use the get_appointment_by_number tool with the appointment number."
          state := { st with calendar_cache := appointments }
          effects := [Effect.connect] }

/-- `search_calendar_appointments` (lines 614-668). -/
def search_calendar_appointments (st : ServerState) (search_term : String)
    (days : Int) (env : CalListEnv) : OpResult :=
  if search_term = "" then
    { output := "Error: Please provide a search term", state := st, effects := [] }
  else if days < 1 || days > 60 then
    { output := "Error: 'days' must be an integer between 1 and 60"
      state := st, effects := [] }
  else
    match env.connectErr with
    | some e =>
      { output := "Error searching calendar appointments: Failed to connect to Outlook: " ++ e
        state := st, effects := [] }
    | none =>
      let appointments :=
        get_appointments_from_calendar env.now days (some search_term) env.calendarItems
      if appointments.isEmpty then
        { output := "No appointments matching '" ++ search_term ++
            "' found in the next " ++ toString days ++ " days."
          state := { st with calendar_cache := [] }
          effects := [Effect.connect] }
      else
        { output := "Found " ++ toString appointments.length ++
            " appointments matching '" ++ search_term ++ "' in the next " ++
            toString days ++ " days:\n\n" ++
            concatNumbered apptSummary 1 appointments ++
            "To view the full details of an appointment, use the get_appointment_by_number tool with the appointment number."
          state := { st with calendar_cache := appointments }
          effects := [Effect.connect] }

/-- The `busy_status_map` rendering of lines 707-708 (`.get` with default). -/
def busyStatusStr (s : Int) : String :=
  if s = 0 then "Free"
  else if s = 1 then "Tentative"
  else if s = 2 then "Busy"
  else if s = 3 then "Out of Office"
  else "Unknown"

/-- The full-detail appointment rendering of lines 691-711. -/
def apptDetail (n : Int) (d : ApptData) : String :=
  "Appointment #" ++ toString n ++ " Details:\n\n" ++
    "Subject: " ++ d.subject ++ "\n" ++
    "Start Time: " ++ timeStr d.start_time ++ "\n" ++
    "End Time: " ++ timeStr d.end_time ++ "\n" ++
    "Location: " ++ d.location ++ "\n" ++
    "Organizer: " ++ d.organizer ++ "\n" ++
    (if !d.attendees.isEmpty then
      "Attendees: " ++ String.intercalate ", " d.attendees ++ "\n"
    else "") ++
    "All Day Event: " ++ yesNo d.is_all_day ++ "\n" ++
    "Recurring: " ++ yesNo d.is_recurring ++ "\n" ++
    "Reminder: " ++ toString d.reminder_minutes ++ " minutes before\n" ++
    "Categories: " ++ d.categories ++ "\n" ++
    "Busy Status: " ++ busyStatusStr d.busy_status ++ "\n" ++
    (if d.body ≠ "" then "\nDescription:\n" ++ d.body ++ "\n" else "")

/-- `get_appointment_by_number` (lines 670-716): a pure cache read, the one
by-number tool that never connects to the store. -/
def get_appointment_by_number (st : ServerState) (appointment_number : Int) : OpResult :=
  if st.calendar_cache.isEmpty then
    { output := "Error: No appointments have been listed yet. Please use list_calendar_appointments or search_calendar_appointments first."
      state := st, effects := [] }
  else if appointment_number < 1 || appointment_number > st.calendar_cache.length then
    { output := "Error: Appointment #" ++ toString appointment_number ++ " not found in the current listing."
      state := st, effects := [] }
  else
    { output := apptDetail appointment_number (apptAt st appointment_number)
      state := st, effects := [] }

/-- Read exactly `k` more decimal digits, accumulating their value. -/
def readDigits : Nat → Nat → List Char → Option (Nat × List Char)
  | 0, acc, rest => some (acc, rest)
  | k + 1, acc, c :: rest =>
    if c.isDigit then readDigits k (acc * 10 + (c.toNat - 48)) rest else none
  | _ + 1, _, [] => none

/-- Read one or two decimal digits (two when the next character is also a
digit), as the `strptime` patterns for month, day, hour and minute do. -/
def readDigits12 : List Char → Option (Nat × List Char)
  | c :: d :: rest =>
    if c.isDigit then
      if d.isDigit then some ((c.toNat - 48) * 10 + (d.toNat - 48), rest)
      else some (c.toNat - 48, d :: rest)
    else none
  | [c] => if c.isDigit then some (c.toNat - 48, []) else none
  | [] => none

/-- Expect one literal character. -/
def readLit (c : Char) : List Char → Option (List Char)
  | d :: rest => if c == d then some rest else none
  | [] => none

/-- Day count of a month, with the Gregorian leap rule (the validity check
`datetime.datetime` performs on the parsed fields). -/
def daysInMonth (y m : Nat) : Nat :=
  if m = 2 then
    if y % 4 = 0 && (y % 100 ≠ 0 || y % 400 = 0) then 29 else 28
  else if m = 4 || m = 6 || m = 9 || m = 11 then 30
  else 31

/-- `datetime.datetime.strptime(s, '%Y-%m-%d %H:%M')` (lines 744-745): four
year digits, one or two digits for month/day/hour/minute with the literal
separators, whole-string match, and field validity; `none` is the
`ValueError` branch.  The parsed fields stand for the resulting datetime. -/
def parseFixedTime (s : String) : Option (Nat × Nat × Nat × Nat × Nat) := do
  let (y, r1) ← readDigits 4 0 s.data
  let r2 ← readLit '-' r1
  let (mo, r3) ← readDigits12 r2
  let r4 ← readLit '-' r3
  let (d, r5) ← readDigits12 r4
  let r6 ← readLit ' ' r5
  let (h, r7) ← readDigits12 r6
  let r8 ← readLit ':' r7
  let (mi, r9) ← readDigits12 r8
  if r9 = [] && 1 ≤ mo && mo ≤ 12 && 1 ≤ d && d ≤ daysInMonth y mo &&
      h ≤ 23 && mi ≤ 59 then
    pure (y, mo, d, h, mi)
  else none

/-- `create_calendar_appointment` (lines 718-768).  The tool connects and
creates an (unsaved) item before parsing the time strings; a parse failure
returns the validation message with no `Save` performed. -/
def create_calendar_appointment (st : ServerState)
    (subject start_time end_time : String)
    (location body attendees : Option String)
    (connectErr : Option String) : OpResult :=
  match connectErr with
  | some e =>
    { output := "Error creating calendar appointment: Failed to connect to Outlook: " ++ e
      state := st, effects := [] }
  | none =>
    match parseFixedTime start_time, parseFixedTime end_time with
    | some _, some _ =>
      { output := "Calendar appointment '" ++ subject ++
          "' created successfully for " ++ start_time ++ " - " ++ end_time
        state := st
        effects := [Effect.connect, Effect.createItem, Effect.save] }
    | _, _ =>
      { output := "Error: Invalid date format. Please use 'YYYY-MM-DD HH:MM' format."
        state := st
        effects := [Effect.connect, Effect.createItem] }

/-! Concrete fixtures used by counterexamples and witnesses. -/

/-- The empty initial state: the caches at process start (lines 13-15). -/
def st0 : ServerState := { email_cache := [], calendar_cache := [] }

/-- A well-formed raw email received at naive time 0. -/
def em1 : RawEmail :=
  { entryID := some "id1", conversationID := none, subject := some "hello"
    senderName := some "bob", senderEmail := some "b@x.com"
    receivedTime := some (some 0), recipients := some []
    body := some "world", attachments := some 0, unread := none
    importance := none, categories := none }

/-- A raw email whose received timestamp lies one day after `now = 0`. -/
def emFuture : RawEmail := { em1 with receivedTime := some (some usPerDay) }

/-- A well-formed raw appointment starting at naive time 0. -/
def ap1 : RawAppt :=
  { entryID := some "ap1", subject := some "standup", start_ := some (some 0)
    end_ := some (some usPerSec), location := some "room 1"
    organizer := some "bob", recipients := some [], body := some "daily"
    allDayEvent := none, isRecurring := none, reminderMinutes := none
    categories := none, importance := none, busyStatus := none }

/-- A raw appointment whose `Start` attribute exists but is `None`/falsy:
line 148's guard skips the window check for it. -/
def apNoStart : RawAppt := { ap1 with start_ := some none }

/-- A raw appointment with no `Location` attribute: when its subject matches
a search term, the or-chain of lines 160-162 short-circuits before reaching
`Location`, so the item is still returned (with the `hasattr` default). -/
def apNoLoc : RawAppt := { ap1 with location := none }

/-- Listing environment over an inbox holding only `em1`. -/
def envOne : EmailListEnv :=
  { connectErr := none, inboxItems := [em1], namedFolder := none
    now := 0, restrictOk := true }

/-- Listing environment over an empty inbox. -/
def envEmpty : EmailListEnv :=
  { connectErr := none, inboxItems := [], namedFolder := none
    now := 0, restrictOk := true }

/-- Fetch environment whose `GetItemFromID` yields nothing. -/
def fenvNone : FetchEnv := { connectErr := none, fetched := none }

/-- A live email item for the by-number success paths. -/
def live1 : LiveEmail :=
  { senderName := "bob", senderEmail := "b@x.com", attachmentNames := [] }

/-- Fetch environment that succeeds and returns `live1`. -/
def fenvLive : FetchEnv := { connectErr := none, fetched := some live1 }

/-! Claim C9. -/

/-- C9: the by-number operations `get_email_by_number`,
`get_appointment_by_number` and `reply_to_email_by_number` never modify
either listing cache — after any such call, on every success and error path,
the state (both `email_cache` and `calendar_cache`) is exactly the state
before the call. -/
theorem byNumber_ops_preserve_caches (st : ServerState) (n m k : Int)
    (env env2 : FetchEnv) (reply_text : String) (dv : DraftVal) :
    (get_email_by_number st n env).state = st ∧
    (get_appointment_by_number st m).state = st ∧
    (reply_to_email_by_number st k reply_text dv env2).state = st := by
  refine ⟨?_, ?_, ?_⟩
  · unfold get_email_by_number
    repeat' split <;> try rfl
  · unfold get_appointment_by_number
    repeat' split <;> try rfl
  · unfold reply_to_email_by_number
    repeat' split <;> try rfl

/-! Claim C2. -/

/-- C2 (code bug): the push-down path and the fallback path of
`get_emails_from_folder` are NOT functionally equivalent.  For the query
`search_term = "xyz"` over the same single-item folder (an email matching no
term), the path on which the store accepts `Restrict` returns no records
while the path on which `Restrict` is rejected returns the email unfiltered:
the fallback's manual filter is dead because the guard
`folder_items == folder.Items` (line 228) compares the stored collection
wrapper against a freshly returned one. -/
theorem pushdown_and_fallback_differ :
    get_emails_from_folder 0 7 (some "xyz") true [em1] = [] ∧
    (get_emails_from_folder 0 7 (some "xyz") false [em1]).map EmailData.subject
      = ["hello"] ∧
    get_emails_from_folder 0 7 (some "xyz") true [em1] ≠
      get_emails_from_folder 0 7 (some "xyz") false [em1] := by
  refine ⟨by decide, by decide, by decide⟩

/-! Claim C5. -/

/-- C5 (counterexample): `create_calendar_appointment` with an unparsable
start time does return the validation error text, but only after a store
connection has been made and an item created (`CreateItem`, line 739) —
contradicting the claim that no store access occurs before a validation
error is returned. -/
theorem create_appointment_connects_before_validation :
    (create_calendar_appointment st0 "Bad" "not-a-date" "2024-01-01 09:30"
        none none none none).output =
      "Error: Invalid date format. Please use 'YYYY-MM-DD HH:MM' format." ∧
    (create_calendar_appointment st0 "Bad" "not-a-date" "2024-01-01 09:30"
        none none none none).effects = [Effect.connect, Effect.createItem] := by
  refine ⟨by decide, by decide⟩

/-- C5 (amended): the `days` and missing-search-term validations run before
any store access (no effect occurs and the validation text is returned); the
time-format validation of `create_calendar_appointment` instead runs after a
connection and `CreateItem`, and a parse failure of either time string
returns the validation error with no `Save` performed. -/
theorem validation_errors_and_effects (st : ServerState) (days : Int)
    (fn : Option String) (term : String) (env : EmailListEnv)
    (cenv : CalListEnv) (subject stime etime : String)
    (loc bd att : Option String) :
    ((days < 1 ∨ 30 < days) →
      (list_recent_emails st days fn env).effects = [] ∧
      (list_recent_emails st days fn env).output =
        "Error: 'days' must be an integer between 1 and 30") ∧
    ((search_emails st "" days fn env).effects = [] ∧
      (search_emails st "" days fn env).output =
        "Error: Please provide a search term") ∧
    (term ≠ "" → (days < 1 ∨ 30 < days) →
      (search_emails st term days fn env).effects = [] ∧
      (search_emails st term days fn env).output =
        "Error: 'days' must be an integer between 1 and 30") ∧
    ((days < 1 ∨ 60 < days) →
      (list_calendar_appointments st days cenv).effects = [] ∧
      (list_calendar_appointments st days cenv).output =
        "Error: 'days' must be an integer between 1 and 60") ∧
    ((search_calendar_appointments st "" days cenv).effects = [] ∧
      (search_calendar_appointments st "" days cenv).output =
        "Error: Please provide a search term") ∧
    (term ≠ "" → (days < 1 ∨ 60 < days) →
      (search_calendar_appointments st term days cenv).effects = [] ∧
      (search_calendar_appointments st term days cenv).output =
        "Error: 'days' must be an integer between 1 and 60") ∧
    (parseFixedTime stime = none →
      (create_calendar_appointment st subject stime etime loc bd att none).output =
        "Error: Invalid date format. Please use 'YYYY-MM-DD HH:MM' format." ∧
      (create_calendar_appointment st subject stime etime loc bd att none).effects =
        [Effect.connect, Effect.createItem]) ∧
    (parseFixedTime etime = none →
      (create_calendar_appointment st subject stime etime loc bd att none).output =
        "Error: Invalid date format. Please use 'YYYY-MM-DD HH:MM' format." ∧
      (create_calendar_appointment st subject stime etime loc bd att none).effects =
        [Effect.connect, Effect.createItem]) := by
  refine ⟨?_, ?_, ?_, ?_, ?_, ?_, ?_, ?_⟩
  · intro h
    unfold list_recent_emails
    rw [if_pos (by rcases h with h | h <;> simp <;> omega)]
    exact ⟨rfl, rfl⟩
  · unfold search_emails
    rw [if_pos rfl]
    exact ⟨rfl, rfl⟩
  · intro ht h
    unfold search_emails
    rw [if_neg ht, if_pos (by rcases h with h | h <;> simp <;> omega)]
    exact ⟨rfl, rfl⟩
  · intro h
    unfold list_calendar_appointments
    rw [if_pos (by rcases h with h | h <;> simp <;> omega)]
    exact ⟨rfl, rfl⟩
  · unfold search_calendar_appointments
    rw [if_pos rfl]
    exact ⟨rfl, rfl⟩
  · intro ht h
    unfold search_calendar_appointments
    rw [if_neg ht, if_pos (by rcases h with h | h <;> simp <;> omega)]
    exact ⟨rfl, rfl⟩
  · intro h
    unfold create_calendar_appointment
    cases he : parseFixedTime etime <;> simp [h, he]
  · intro h
    unfold create_calendar_appointment
    cases hs : parseFixedTime stime <;> simp [h, hs]

/-- C5 (amended) witness: a run of each validation path at concrete inputs. -/
theorem validation_errors_and_effects_witness :
    (list_recent_emails st0 0 none envEmpty).effects = [] ∧
    (search_emails st0 "x" 31 none envEmpty).output =
      "Error: 'days' must be an integer between 1 and 30" ∧
    (create_calendar_appointment st0 "Bad" "not-a-date" "2024-01-01 09:30"
        none none none none).effects = [Effect.connect, Effect.createItem] := by
  have h := validation_errors_and_effects st0 0 none "x" envEmpty
    { connectErr := none, calendarItems := [], now := 0 }
    "Bad" "not-a-date" "2024-01-01 09:30" none none none
  have h31 := validation_errors_and_effects st0 31 none "x" envEmpty
    { connectErr := none, calendarItems := [], now := 0 }
    "Bad" "not-a-date" "2024-01-01 09:30" none none none
  exact ⟨(h.1 (by decide)).1, (h31.2.2.1 (by decide) (by decide)).2,
    (h.2.2.2.2.2.2.1 (by decide)).2⟩

/-! Claim C10. -/

/-- C10: when a list/search operation stops with a validation error
(out-of-range `days`, missing search term) or with the folder-not-found
error, the listing cache of that kind is exactly what it was before the
call: the old cache is cleared only after connection and folder resolution
have succeeded. -/
theorem failed_listing_preserves_cache (st : ServerState) (days : Int)
    (f : String) (term : String) (env : EmailListEnv) (cenv : CalListEnv) :
    ((days < 1 ∨ 30 < days) → ∀ fn,
      (list_recent_emails st days fn env).state = st ∧
      (term ≠ "" → (search_emails st term days fn env).state = st)) ∧
    (∀ fn, (search_emails st "" days fn env).state = st) ∧
    (env.namedFolder = none →
      (list_recent_emails st days (some f) env).state = st ∧
      (search_emails st term days (some f) env).state = st) ∧
    ((days < 1 ∨ 60 < days) →
      (list_calendar_appointments st days cenv).state = st ∧
      (term ≠ "" → (search_calendar_appointments st term days cenv).state = st)) ∧
    (search_calendar_appointments st "" days cenv).state = st := by
  refine ⟨?_, ?_, ?_, ?_, ?_⟩
  · intro h fn
    have hg : (days < 1 || days > 30) = true := by
      rcases h with h | h <;> simp <;> omega
    constructor
    · unfold list_recent_emails
      rw [if_pos hg]
    · intro ht
      unfold search_emails
      rw [if_neg ht, if_pos hg]
  · intro fn
    unfold search_emails
    rw [if_pos rfl]
  · intro h
    constructor
    · unfold list_recent_emails
      split
      · rfl
      · cases hc : env.connectErr <;> simp [hc, h]
    · unfold search_emails
      split
      · rfl
      · split
        · rfl
        · cases hc : env.connectErr <;> simp [hc, h]
  · intro h
    have hg : (days < 1 || days > 60) = true := by
      rcases h with h | h <;> simp <;> omega
    constructor
    · unfold list_calendar_appointments
      rw [if_pos hg]
    · intro ht
      unfold search_calendar_appointments
      rw [if_neg ht, if_pos hg]
  · unfold search_calendar_appointments
    rw [if_pos rfl]

/-- C10 witness: concrete failed calls leave a non-trivial cache intact. -/
theorem failed_listing_preserves_cache_witness :
    (list_recent_emails (list_recent_emails st0 7 none envOne).state 0 none
        envOne).state = (list_recent_emails st0 7 none envOne).state ∧
    (list_recent_emails (list_recent_emails st0 7 none envOne).state 7
        (some "Archive") envEmpty).state =
      (list_recent_emails st0 7 none envOne).state := by
  have h0 := failed_listing_preserves_cache
    (list_recent_emails st0 7 none envOne).state 0 "Archive" "x" envOne
    { connectErr := none, calendarItems := [], now := 0 }
  have h7 := failed_listing_preserves_cache
    (list_recent_emails st0 7 none envOne).state 7 "Archive" "x" envEmpty
    { connectErr := none, calendarItems := [], now := 0 }
  exact ⟨(h0.1 (by decide) none).1, (h7.2.2.1 rfl).1⟩

/-! Claim C1. -/

/-- C1 (counterexample): after a listing HAS been installed in this process
lifetime (first a one-email listing, then a successful zero-result listing),
resolving ordinal 1 — which is outside `[1, N]` of the current listing,
`N = 0` — yields the empty-listing error text, not the ordinal-not-found
error text the claim requires: the code keys LISTED-NOTHING-YET on cache
emptiness, not on whether a listing was ever installed. -/
theorem resolve_after_empty_listing_wrong_error :
    (list_recent_emails st0 7 none envOne).state.email_cache.length = 1 ∧
    (list_recent_emails (list_recent_emails st0 7 none envOne).state 7 none
        envEmpty).output = "No emails found in Inbox from the last 7 days." ∧
    (get_email_by_number
        (list_recent_emails (list_recent_emails st0 7 none envOne).state 7 none
          envEmpty).state 1 fenvLive).output =
      "Error: No emails have been listed yet. Please use list_recent_emails or search_emails first." ∧
    "Error: No emails have been listed yet. Please use list_recent_emails or search_emails first." ≠
      "Error: Email #1 not found in the current listing." := by
  refine ⟨by decide, by decide, by decide, by decide⟩

/-- C1 (amended): resolution by ordinal fails with the empty-listing error
whenever the CURRENT listing of that kind is empty (no listing ever
installed, or the most recent one had zero records), fails with the
ordinal-not-found error when the current listing is non-empty and the
ordinal is outside `[1, N]`, and otherwise — for `get_email_by_number`, when
the store connection and live-item fetch also succeed — renders the record
installed at position `k` of the most recent listing. -/
theorem resolve_by_number_cases (st : ServerState) (n : Int) (env : FetchEnv)
    (live : LiveEmail) :
    (st.email_cache = [] → (get_email_by_number st n env).output =
      "Error: No emails have been listed yet. Please use list_recent_emails or search_emails first.") ∧
    (st.email_cache ≠ [] → (n < 1 ∨ (st.email_cache.length : Int) < n) →
      (get_email_by_number st n env).output =
        "Error: Email #" ++ toString n ++ " not found in the current listing.") ∧
    (st.email_cache ≠ [] → 1 ≤ n → n ≤ (st.email_cache.length : Int) →
      env.connectErr = none → env.fetched = some live →
      (get_email_by_number st n env).output =
        emailDetail n (emailAt st n) live) ∧
    (st.calendar_cache = [] → (get_appointment_by_number st n).output =
      "Error: No appointments have been listed yet. Please use list_calendar_appointments or search_calendar_appointments first.") ∧
    (st.calendar_cache ≠ [] → (n < 1 ∨ (st.calendar_cache.length : Int) < n) →
      (get_appointment_by_number st n).output =
        "Error: Appointment #" ++ toString n ++ " not found in the current listing.") ∧
    (st.calendar_cache ≠ [] → 1 ≤ n → n ≤ (st.calendar_cache.length : Int) →
      (get_appointment_by_number st n).output =
        apptDetail n (apptAt st n)) := by
  refine ⟨?_, ?_, ?_, ?_, ?_, ?_⟩
  · intro h
    unfold get_email_by_number
    rw [if_pos (by simp [h])]
  · intro h hn
    unfold get_email_by_number
    rw [if_neg (by simp [List.isEmpty_iff, h]),
      if_pos (by rcases hn with hn | hn <;> simp <;> omega)]
  · intro h h1 h2 hc hf
    unfold get_email_by_number
    rw [if_neg (by simp [List.isEmpty_iff, h]),
      if_neg (by simp only [Bool.or_eq_true, decide_eq_true_eq]; omega)]
    simp [hc, hf]
  · intro h
    unfold get_appointment_by_number
    rw [if_pos (by simp [h])]
  · intro h hn
    unfold get_appointment_by_number
    rw [if_neg (by simp [List.isEmpty_iff, h]),
      if_pos (by rcases hn with hn | hn <;> simp <;> omega)]
  · intro h h1 h2
    unfold get_appointment_by_number
    rw [if_neg (by simp [List.isEmpty_iff, h]),
      if_neg (by simp only [Bool.or_eq_true, decide_eq_true_eq]; omega)]

/-- C1 (amended) witness: the three email cases and the empty calendar case
at concrete inputs. -/
theorem resolve_by_number_cases_witness :
    (get_email_by_number st0 1 fenvLive).output =
      "Error: No emails have been listed yet. Please use list_recent_emails or search_emails first." ∧
    (get_email_by_number (list_recent_emails st0 7 none envOne).state 2
        fenvLive).output =
      "Error: Email #2 not found in the current listing." ∧
    (get_email_by_number (list_recent_emails st0 7 none envOne).state 1
        fenvLive).output =
      emailDetail 1 (emailAt (list_recent_emails st0 7 none envOne).state 1) live1 ∧
    (get_appointment_by_number st0 1).output =
      "Error: No appointments have been listed yet. Please use list_calendar_appointments or search_calendar_appointments first." := by
  have h0 := resolve_by_number_cases st0 1 fenvLive live1
  have h2 := resolve_by_number_cases (list_recent_emails st0 7 none envOne).state
    2 fenvLive live1
  have h1 := resolve_by_number_cases (list_recent_emails st0 7 none envOne).state
    1 fenvLive live1
  exact ⟨h0.1 rfl, h2.2.1 (by decide) (by decide),
    h1.2.2.1 (by decide) (by decide) (by decide) rfl rfl, h0.2.2.2.1 rfl⟩

/-! Claim C8. -/

/-- C8: for `reply_to_email_by_number` (on a resolvable ordinal with a
successful fetch) and `compose_email`, `save_as_draft` = native `true` or a
string whose lowering is in `{"true", "1", "yes"}` saves a draft and does not
send; any other string sends; and the omitted parameter defaults to saving a
draft (`save_as_draft: bool = True` in both signatures). -/
theorem save_as_draft_semantics (st : ServerState) (n : Int) (text : String)
    (env : FetchEnv) (live : LiveEmail) (s : String)
    (recipient subject body : String) (cc : Option String)
    (hne : st.email_cache ≠ []) (h1 : 1 ≤ n)
    (h2 : n ≤ (st.email_cache.length : Int))
    (hc : env.connectErr = none) (hf : env.fetched = some live) :
    ((reply_to_email_by_number st n text (DraftVal.ofBool true) env).effects =
        [Effect.connect, Effect.save] ∧
      (reply_to_email_by_number st n text (DraftVal.ofBool true) env).output =
        "Reply saved as draft for: " ++ live.senderName ++ " <" ++ live.senderEmail ++ ">") ∧
    (reply_to_email_by_number st n text save_as_draft_default env).effects =
      [Effect.connect, Effect.save] ∧
    ((["true", "1", "yes"].contains (pyLowerStr s) = true →
      (reply_to_email_by_number st n text (DraftVal.ofStr s) env).effects =
        [Effect.connect, Effect.save]) ∧
     (["true", "1", "yes"].contains (pyLowerStr s) = false →
      (reply_to_email_by_number st n text (DraftVal.ofStr s) env).effects =
        [Effect.connect, Effect.send] ∧
      (reply_to_email_by_number st n text (DraftVal.ofStr s) env).output =
        "Reply sent successfully to: " ++ live.senderName ++ " <" ++ live.senderEmail ++ ">")) ∧
    ((compose_email st recipient subject body cc (DraftVal.ofBool true) none).effects =
      [Effect.connect, Effect.createItem, Effect.save]) ∧
    ((compose_email st recipient subject body cc save_as_draft_default none).effects =
      [Effect.connect, Effect.createItem, Effect.save]) ∧
    ((["true", "1", "yes"].contains (pyLowerStr s) = true →
      (compose_email st recipient subject body cc (DraftVal.ofStr s) none).effects =
        [Effect.connect, Effect.createItem, Effect.save]) ∧
     (["true", "1", "yes"].contains (pyLowerStr s) = false →
      (compose_email st recipient subject body cc (DraftVal.ofStr s) none).effects =
        [Effect.connect, Effect.createItem, Effect.send])) := by
  have hE : st.email_cache.isEmpty = false := by simp [List.isEmpty_iff, hne]
  have hG : (n < 1 || n > (st.email_cache.length : Int)) = false := by
    simp only [Bool.or_eq_false_iff, decide_eq_false_iff_not]
    omega
  refine ⟨⟨?_, ?_⟩, ?_, ⟨?_, ?_⟩, ?_, ?_, ⟨?_, ?_⟩⟩ <;>
    try intro hs
  all_goals
    first
    | (unfold reply_to_email_by_number
       rw [if_neg (by simp [hE]), if_neg (by simp [hG])]
       simp_all [coerceDraft, save_as_draft_default])
    | (unfold compose_email
       simp_all [coerceDraft, save_as_draft_default])

/-- C8 witness: the draft/send decision at concrete inputs. -/
theorem save_as_draft_semantics_witness :
    (reply_to_email_by_number (list_recent_emails st0 7 none envOne).state 1
        "thanks" (DraftVal.ofBool true) fenvLive).effects =
      [Effect.connect, Effect.save] ∧
    (compose_email st0 "a@x.com" "hi" "text" none (DraftVal.ofStr "No") none).effects =
      [Effect.connect, Effect.createItem, Effect.send] := by
  have h := save_as_draft_semantics (list_recent_emails st0 7 none envOne).state
    1 "thanks" fenvLive live1 "No" "a@x.com" "hi" "text" none
    (by decide) (by decide) (by decide) rfl rfl
  exact ⟨h.1.1, (h.2.2.2.2.2.2 (by decide))⟩

/-! Claim C4. -/

/-- C4 (counterexample): the normalizers DO raise.  A mail item without an
`Attachments` collection makes `format_email` raise (line 76 accesses
`mail_item.Attachments.Count` unguarded), and an appointment without a
`Start` attribute makes `format_appointment` raise (line 113); in both cases
the outer `except` re-raises a formatting exception instead of substituting
a default. -/
theorem normalizers_can_raise :
    format_email { em1 with attachments := none } =
      Except.error "Failed to format email: Attachments" ∧
    format_appointment { ap1 with start_ := none } =
      Except.error "Failed to format appointment: Start" := by
  refine ⟨by decide, by decide⟩

/-- Reduction of a successful `Except` bind (do-notation step). -/
theorem bind_ok {α β : Type} (a : α) (f : α → Except String β) :
    (Except.ok a >>= f) = f a := rfl

/-- Reduction of a failed `Except` bind (a raise propagates). -/
theorem bind_error {α β : Type} (e : String) (f : α → Except String β) :
    ((Except.error e : Except String α) >>= f) = Except.error e := rfl

/-- Rendering of a recipient list in which every recipient has a name:
no raise, `"Name <Address>"` when the address exists, else `"Name"`. -/
theorem fmtRecipients_named (rs : List (String × Option String)) :
    fmtRecipients (rs.map fun p => { name := some p.1, address := p.2 }) =
      Except.ok (rs.map fun p =>
        match p.2 with
        | some a => p.1 ++ " <" ++ a ++ ">"
        | none => p.1) := by
  induction rs with
  | nil => rfl
  | cons p rs ih =>
    cases p with
    | mk nm ad => cases ad <;> simp [fmtRecipients, fmtRecipient, ih] <;> rfl

/-- C4 (amended): when the unguarded attributes are present (email: EntryID,
Subject, SenderName, SenderEmailAddress, ReceivedTime, Recipients with named
entries, Body, Attachments; appointment: EntryID, Subject, Start, End), the
normalizers do not raise, and every `hasattr`-guarded attribute that is
absent is replaced by its documented default (empty string, zero, false,
`None` for the conversation id, importance 1, busy status 2); an absent
unguarded attribute instead raises a formatting exception, which the scan
loops catch per item. -/
theorem normalizers_guarded_defaults (eid subj sname saddr bdy : String)
    (conv : Option String) (rt : Option Int) (ac : Nat)
    (rs : List (String × Option String))
    (eid2 subj2 : String) (stv env2 : Option Int) :
    format_email
        { entryID := some eid, conversationID := conv, subject := some subj
          senderName := some sname, senderEmail := some saddr
          receivedTime := some rt
          recipients := some (rs.map fun p => { name := some p.1, address := p.2 })
          body := some bdy, attachments := some ac
          unread := none, importance := none, categories := none } =
      Except.ok
        { id := eid, conversation_id := conv, subject := subj, sender := sname
          sender_email := saddr, received_time := rt
          recipients := rs.map fun p =>
            match p.2 with
            | some a => p.1 ++ " <" ++ a ++ ">"
            | none => p.1
          body := bdy, has_attachments := ac > 0, attachment_count := ac
          unread := false, importance := 1, categories := "" } ∧
    format_appointment
        { entryID := some eid2, subject := some subj2, start_ := some stv
          end_ := some env2, location := none, organizer := none
          recipients := none, body := none, allDayEvent := none
          isRecurring := none, reminderMinutes := none, categories := none
          importance := none, busyStatus := none } =
      Except.ok
        { id := eid2, subject := subj2, start_time := stv, end_time := env2
          location := "", organizer := "", attendees := [], body := ""
          is_all_day := false, is_recurring := false, reminder_minutes := 0
          categories := "", importance := 1, busy_status := 2 } := by
  constructor
  · unfold format_email format_email_core
    simp only [attrGet, bind_ok, fmtRecipients_named rs]
    rfl
  · rfl

/-- A successful `format_email` preserves the raw item's received timestamp
into the record's `received_time` field. -/
theorem format_email_receivedTime {m : RawEmail} {d : EmailData}
    (h : format_email m = Except.ok d) : m.receivedTime = some d.received_time := by
  unfold format_email at h
  rcases hc : format_email_core m with e | d0
  · rw [hc] at h; exact Except.noConfusion h
  rw [hc] at h
  injection h with h
  subst h
  unfold format_email_core at hc
  rcases h1 : m.recipients with _ | rr
  · rw [h1] at hc
    simp only [attrGet, bind_error] at hc
    exact Except.noConfusion hc
  rw [h1] at hc
  simp only [attrGet, bind_ok] at hc
  rcases h2 : fmtRecipients rr with e | recips
  · rw [h2, bind_error] at hc; exact Except.noConfusion hc
  rw [h2, bind_ok] at hc
  rcases h3 : m.entryID with _ | eid
  · rw [h3] at hc; simp only [attrGet, bind_error] at hc
    exact Except.noConfusion hc
  rw [h3] at hc
  simp only [attrGet, bind_ok] at hc
  rcases h4 : m.subject with _ | subj
  · rw [h4] at hc; simp only [attrGet, bind_error] at hc
    exact Except.noConfusion hc
  rw [h4] at hc
  simp only [attrGet, bind_ok] at hc
  rcases h5 : m.senderName with _ | sn
  · rw [h5] at hc; simp only [attrGet, bind_error] at hc
    exact Except.noConfusion hc
  rw [h5] at hc
  simp only [attrGet, bind_ok] at hc
  rcases h6 : m.senderEmail with _ | se
  · rw [h6] at hc; simp only [attrGet, bind_error] at hc
    exact Except.noConfusion hc
  rw [h6] at hc
  simp only [attrGet, bind_ok] at hc
  rcases h7 : m.receivedTime with _ | rt
  · rw [h7] at hc; simp only [attrGet, bind_error] at hc
    exact Except.noConfusion hc
  rw [h7] at hc
  simp only [attrGet, bind_ok] at hc
  rcases h8 : m.body with _ | bd
  · rw [h8] at hc; simp only [attrGet, bind_error] at hc
    exact Except.noConfusion hc
  rw [h8] at hc
  simp only [attrGet, bind_ok] at hc
  rcases h9 : m.attachments with _ | ac
  · rw [h9] at hc; simp only [attrGet, bind_error] at hc
    exact Except.noConfusion hc
  rw [h9] at hc
  simp only [attrGet, bind_ok] at hc
  injection hc with hc
  rw [← hc]

/-- A successful `format_appointment` preserves the raw item's `Start` value
into the record's `start_time` field. -/
theorem format_appointment_startTime {a : RawAppt} {d : ApptData}
    (h : format_appointment a = Except.ok d) : a.start_ = some d.start_time := by
  unfold format_appointment at h
  rcases hc : format_appointment_core a with e | d0
  · rw [hc] at h; exact Except.noConfusion h
  rw [hc] at h
  injection h with h
  subst h
  unfold format_appointment_core at hc
  rcases h1 : apptAttendees a with e | att
  · rw [h1, bind_error] at hc
    exact Except.noConfusion hc
  rw [h1, bind_ok] at hc
  rcases h3 : a.entryID with _ | eid
  · rw [h3] at hc; simp only [attrGet, bind_error] at hc
    exact Except.noConfusion hc
  rw [h3] at hc
  simp only [attrGet, bind_ok] at hc
  rcases h4 : a.subject with _ | subj
  · rw [h4] at hc; simp only [attrGet, bind_error] at hc
    exact Except.noConfusion hc
  rw [h4] at hc
  simp only [attrGet, bind_ok] at hc
  rcases h5 : a.start_ with _ | st
  · rw [h5] at hc; simp only [attrGet, bind_error] at hc
    exact Except.noConfusion hc
  rw [h5] at hc
  simp only [attrGet, bind_ok] at hc
  rcases h6 : a.end_ with _ | en
  · rw [h6] at hc; simp only [attrGet, bind_error] at hc
    exact Except.noConfusion hc
  rw [h6] at hc
  simp only [attrGet, bind_ok] at hc
  injection hc with hc
  rw [← hc]

/-- An email record produced by the scan loop carries a received timestamp,
and it is at or after the threshold (the loop checks only the lower bound). -/
theorem processEmail_window {th : Int} {s : Option String} {m : RawEmail}
    {d : EmailData} (h : processEmail th s m = some d) :
    ∃ rt, d.received_time = some rt ∧ th ≤ rt := by
  unfold processEmail at h
  rcases hrt : m.receivedTime with _ | ort
  · rw [hrt] at h; exact Option.noConfusion h
  rcases ort with _ | rt
  · rw [hrt] at h; exact Option.noConfusion h
  rw [hrt] at h
  dsimp only at h
  split at h
  · exact Option.noConfusion h
  · rename_i hnotlt
    rw [show (s.isSome && comItemsEq) = false by simp [comItemsEq]] at h
    simp only [Bool.false_eq_true, if_false] at h
    cases hm : format_email m with
    | error e => rw [hm] at h; exact Option.noConfusion h
    | ok d0 =>
      rw [hm] at h
      simp only [Except.toOption] at h
      injection h with h
      subst h
      have := format_email_receivedTime hm
      rw [hrt] at this
      injection this with this
      exact ⟨rt, this.symm, by omega⟩

/-- C3 (counterexample): the email scan has no upper time bound.  With
`now = 0` and `days = 7`, an email received one full day AFTER `now` is
returned by `get_emails_from_folder`, although the claim confines results to
`[now - days, now]`. -/
theorem future_email_returned :
    (get_emails_from_folder 0 7 none true [emFuture]).map EmailData.received_time
      = [some usPerDay] ∧ (0 : Int) < usPerDay := by
  refine ⟨by decide, by decide⟩

/-- C3 (amended): for valid `days`, every email returned by the listing scan
(under any search expression and either filter path) has a received
timestamp, and that timestamp is at or after `now - days` (boundary
included); the code performs no upper-bound check, so timestamps after `now`
are not excluded. -/
theorem emails_lower_window_only (now days : Int) (s : Option String)
    (rOk : Bool) (items : List RawEmail) (h1 : 1 ≤ days) (h2 : days ≤ 30) :
    ∀ d ∈ get_emails_from_folder now days s rOk items,
      ∃ rt, d.received_time = some rt ∧ now - days * usPerDay ≤ rt := by
  intro d hd
  simp only [get_emails_from_folder, List.mem_filterMap] at hd
  obtain ⟨m, -, hm⟩ := hd
  exact processEmail_window hm

/-- C3 (amended) witness: the lower-bound property at a concrete query. -/
theorem emails_lower_window_only_witness :
    (1 : Int) ≤ 7 ∧ (7 : Int) ≤ 30 ∧
    ∀ d ∈ get_emails_from_folder 0 7 none true [em1],
      ∃ rt, d.received_time = some rt ∧ 0 - 7 * usPerDay ≤ rt :=
  ⟨by decide, by decide,
    emails_lower_window_only 0 7 none true [em1] (by decide) (by decide)⟩

/-- An appointment record produced by the scan loop comes from a successful
`format_appointment` of its raw item. -/
theorem processAppt_format {sd ed : Int} {s : Option String} {a : RawAppt}
    {d : ApptData} (h : processAppt sd ed s a = some d) :
    format_appointment a = Except.ok d := by
  have hfin : ∀ h2 : (format_appointment a).toOption = some d,
      format_appointment a = Except.ok d := by
    intro h2
    cases hm : format_appointment a with
    | error e => rw [hm] at h2; exact Option.noConfusion h2
    | ok d0 =>
      rw [hm] at h2
      simp only [Except.toOption] at h2
      injection h2 with h2
      exact congrArg Except.ok h2
  unfold processAppt at h
  dsimp only at h
  repeat' split at h
  all_goals first
    | exact Option.noConfusion h
    | exact hfin h

/-- An appointment record produced by the scan loop whose `start_time` is
present lies inside the computed window. -/
theorem processAppt_window {sd ed : Int} {s : Option String} {a : RawAppt}
    {d : ApptData} (h : processAppt sd ed s a = some d) :
    ∀ t, d.start_time = some t → sd ≤ t ∧ t ≤ ed := by
  intro t ht
  have hst := format_appointment_startTime (processAppt_format h)
  rw [ht] at hst
  unfold processAppt at h
  rw [hst] at h
  dsimp only at h
  split at h
  · exact Option.noConfusion h
  · rename_i hcond
    simp only [Bool.not_eq_true', Bool.and_eq_false_iff, decide_eq_false_iff_not] at hcond
    constructor <;> omega

/-- C7 (counterexample): an appointment whose `Start` attribute is present
but `None` bypasses the window check (line 148) and is returned with no
start time at all, so not every returned appointment has a start time inside
`[today 00:00:00, today + days 23:59:59]`. -/
theorem appt_without_start_returned :
    (get_appointments_from_calendar 0 7 none [apNoStart]).map ApptData.start_time
      = [none] := by
  decide

/-- C7 (amended): for valid `days`, every appointment returned by
`get_appointments_from_calendar` that carries a start time has it inside
`[today 00:00:00, (today + days) 23:59:59]`, both bounds inclusive;
an appointment whose raw `Start` is absent-or-falsy bypasses the window
check (it is returned with `start_time = None` when formatting succeeds). -/
theorem appts_within_window (now days : Int) (s : Option String)
    (items : List RawAppt) (h1 : 1 ≤ days) (h2 : days ≤ 60) :
    ∀ d ∈ get_appointments_from_calendar now days s items, ∀ t,
      d.start_time = some t →
      dayStart now ≤ t ∧ t ≤ dayStart now + days * usPerDay + 86399 * usPerSec := by
  intro d hd
  simp only [get_appointments_from_calendar, List.mem_filterMap] at hd
  obtain ⟨a, -, ha⟩ := hd
  exact processAppt_window ha

/-- C7 (amended) witness: a concrete search query whose matching appointment
lacks a `Location` attribute — the or-chain short-circuits on the subject
match, the record is returned (with the `hasattr` default location), and the
window theorem covers it. -/
theorem appts_within_window_witness :
    (get_appointments_from_calendar 0 7 (some "stand") [apNoLoc]).map
        ApptData.subject = ["standup"] ∧
    (get_appointments_from_calendar 0 7 (some "stand") [apNoLoc]).map
        ApptData.location = [""] ∧
    (1 : Int) ≤ 7 ∧ (7 : Int) ≤ 60 ∧
    ∀ d ∈ get_appointments_from_calendar 0 7 (some "stand") [apNoLoc], ∀ t,
      d.start_time = some t →
      dayStart 0 ≤ t ∧ t ≤ dayStart 0 + 7 * usPerDay + 86399 * usPerSec :=
  ⟨by decide, by decide, by decide, by decide,
    appts_within_window 0 7 (some "stand") [apNoLoc] (by decide) (by decide)⟩

/-- `List.any` is invariant under permutation of the list. -/
theorem perm_any {α : Type} (p : α → Bool) {l1 l2 : List α} (h : l1.Perm l2) :
    l1.any p = l2.any p := by
  induction h with
  | nil => rfl
  | cons x _ ih => simp [List.any_cons, ih]
  | swap x y l => simp [List.any_cons, Bool.or_left_comm]
  | trans _ _ ih1 ih2 => exact ih1.trans ih2

/-- C6: a record matches a search expression iff some term of the expression
— obtained by splitting on the literal `" OR "`, stripping, and comparing
case-insensitively (lowered term against lowered field) — is a substring of
one of the kind-specific searchable fields (email: subject, sender name,
body; appointment: subject, location, body); and the outcome is invariant
under any reordering (permutation) of the processed terms. -/
theorem search_match_iff_and_reorder :
    (∀ expr subject sender location body : List Char,
      (emailTermMatch expr subject sender body = true ↔
        ∃ t ∈ (splitOR [] expr).map pyStrip,
          containsB (pyLower t) (pyLower subject) = true ∨
          containsB (pyLower t) (pyLower sender) = true ∨
          containsB (pyLower t) (pyLower body) = true) ∧
      (apptTermMatch expr subject location body = true ↔
        ∃ t ∈ (splitOR [] expr).map pyStrip,
          containsB (pyLower t) (pyLower subject) = true ∨
          containsB (pyLower t) (pyLower location) = true ∨
          containsB (pyLower t) (pyLower body) = true)) ∧
    (∀ e1 e2 : List Char, (searchTermsOf e1).Perm (searchTermsOf e2) →
      ∀ subject sender location body : List Char,
        emailTermMatch e1 subject sender body =
          emailTermMatch e2 subject sender body ∧
        apptTermMatch e1 subject location body =
          apptTermMatch e2 subject location body) := by
  constructor
  · intro expr subject sender location body
    constructor <;>
      simp [emailTermMatch, apptTermMatch, searchTermsOf, List.any_eq_true,
        List.mem_map, or_assoc]
  · intro e1 e2 h subject sender location body
    exact ⟨perm_any _ h, perm_any _ h⟩

/-- C6 witness: reordering `"alice OR bob"` to `"bob OR alice"` leaves the
match outcome unchanged, at inputs where the match is positive. -/
theorem search_match_iff_and_reorder_witness :
    emailTermMatch "alice OR bob".data "Re: lunch".data "Bob Smith".data "".data
      = emailTermMatch "bob OR alice".data "Re: lunch".data "Bob Smith".data "".data ∧
    emailTermMatch "alice OR bob".data "Re: lunch".data "Bob Smith".data "".data
      = true :=
  ⟨(search_match_iff_and_reorder.2 "alice OR bob".data "bob OR alice".data
      (by decide) "Re: lunch".data "Bob Smith".data "".data "".data).1,
    by decide⟩

end OutlookMcp
